import Mathlib

/-!
Verification of the smite-python client core (src/smite.py).

The embedding models the module `smite.py`:
  - `create_signature` embeds `SmiteClient._create_signature` (line 122-124),
    on top of a full MD5 implementation over byte lists (the source calls
    `hashlib.md5(...).hexdigest()` on the UTF-8 bytes of
    `dev_id + methodname + auth_key + timestamp`).
  - `Json` models the Python values produced by `json.loads`; `Json.truthy`
    models Python truthiness (`if not jsonfinal`), `pyIn` models the Python
    membership operator used in `_test_session` (`"successful" in json.loads(...)`).
  - The network is modelled by `Net`: an oracle `transport : Nat -> Except Nat Json`
    giving the response to the k-th `urlopen` call (`.error code` is an
    `urllib.error.HTTPError` with that status; `.ok j` is a 2xx body parsing to j),
    plus a `trace` of the URLs fetched so far, in order.  Round trips are counted
    by `trace` growth.
  - `create_session`, `test_session`, `ensure_session`, `build_request_url`,
    `make_request`, `ping`, `switch_endpoint` embed the correspondingly named
    methods of `SmiteClient` (Lean-style names keep the Python names minus the
    leading underscore).  Wall-clock timestamps are threaded as an explicit
    `ts : String` argument (`_create_now_timestamp` reads the clock; the clock is
    assumed constant during one public call).
  - Python exceptions are `PyErr`: `noResult msg` is `NoResultError(msg)`,
    `smiteError msg` is `SmiteError(msg)`, `typeError` is a `TypeError`
    (for example `str.join` over a non-string item), `attributeError` is an
    `AttributeError` (`.get` on a non-dict), `unboundLocal v` is an
    `UnboundLocalError` for the local variable v, and `httpError code` is an
    uncaught `urllib.error.HTTPError`.
-/

/-! ## MD5 over byte lists (bytes are `Nat` values below 256) -/

def rotl32 (x n : Nat) : Nat :=
  ((x <<< n) ||| (x >>> (32 - n))) % 4294967296

def md5K : List Nat :=
  [0xd76aa478, 0xe8c7b756, 0x242070db, 0xc1bdceee,
   0xf57c0faf, 0x4787c62a, 0xa8304613, 0xfd469501,
   0x698098d8, 0x8b44f7af, 0xffff5bb1, 0x895cd7be,
   0x6b901122, 0xfd987193, 0xa679438e, 0x49b40821,
   0xf61e2562, 0xc040b340, 0x265e5a51, 0xe9b6c7aa,
   0xd62f105d, 0x02441453, 0xd8a1e681, 0xe7d3fbc8,
   0x21e1cde6, 0xc33707d6, 0xf4d50d87, 0x455a14ed,
   0xa9e3e905, 0xfcefa3f8, 0x676f02d9, 0x8d2a4c8a,
   0xfffa3942, 0x8771f681, 0x6d9d6122, 0xfde5380c,
   0xa4beea44, 0x4bdecfa9, 0xf6bb4b60, 0xbebfbc70,
   0x289b7ec6, 0xeaa127fa, 0xd4ef3085, 0x04881d05,
   0xd9d4d039, 0xe6db99e5, 0x1fa27cf8, 0xc4ac5665,
   0xf4292244, 0x432aff97, 0xab9423a7, 0xfc93a039,
   0x655b59c3, 0x8f0ccc92, 0xffeff47d, 0x85845dd1,
   0x6fa87e4f, 0xfe2ce6e0, 0xa3014314, 0x4e0811a1,
   0xf7537e82, 0xbd3af235, 0x2ad7d2bb, 0xeb86d391]

def md5S : List Nat :=
  [7, 12, 17, 22, 7, 12, 17, 22, 7, 12, 17, 22, 7, 12, 17, 22,
   5, 9, 14, 20, 5, 9, 14, 20, 5, 9, 14, 20, 5, 9, 14, 20,
   4, 11, 16, 23, 4, 11, 16, 23, 4, 11, 16, 23, 4, 11, 16, 23,
   6, 10, 15, 21, 6, 10, 15, 21, 6, 10, 15, 21, 6, 10, 15, 21]

structure Md5State where
  a : Nat
  b : Nat
  c : Nat
  d : Nat

def md5Word (chunk : List Nat) (g : Nat) : Nat :=
  chunk.getD (4 * g) 0 + 256 * chunk.getD (4 * g + 1) 0 +
    65536 * chunk.getD (4 * g + 2) 0 + 16777216 * chunk.getD (4 * g + 3) 0

def md5Mix (st : Md5State) (i : Nat) : Nat × Nat :=
  if i < 16 then ((st.b &&& st.c) ||| ((st.b ^^^ 4294967295) &&& st.d), i)
  else if i < 32 then ((st.d &&& st.b) ||| ((st.d ^^^ 4294967295) &&& st.c), (5 * i + 1) % 16)
  else if i < 48 then (st.b ^^^ st.c ^^^ st.d, (3 * i + 5) % 16)
  else (st.c ^^^ (st.b ||| (st.d ^^^ 4294967295)), (7 * i) % 16)

def md5Round (chunk : List Nat) (st : Md5State) (i : Nat) : Md5State :=
  let fg := md5Mix st i
  let f := (fg.1 + st.a + md5K.getD i 0 + md5Word chunk fg.2) % 4294967296
  { a := st.d, b := (st.b + rotl32 f (md5S.getD i 0)) % 4294967296, c := st.b, d := st.c }

def md5Chunk (st : Md5State) (chunk : List Nat) : Md5State :=
  let r := (List.range 64).foldl (md5Round chunk) st
  { a := (st.a + r.a) % 4294967296, b := (st.b + r.b) % 4294967296,
    c := (st.c + r.c) % 4294967296, d := (st.d + r.d) % 4294967296 }

def toChunks (l : List Nat) : List (List Nat) :=
  (List.range (l.length / 64)).map (fun i => (l.drop (64 * i)).take 64)

def md5LenBytes (n : Nat) : List Nat :=
  [n % 256, n / 256 % 256, n / 65536 % 256, n / 16777216 % 256,
   n / 4294967296 % 256, n / 1099511627776 % 256,
   n / 281474976710656 % 256, n / 72057594037927936 % 256]

def md5Pad (msg : List Nat) : List Nat :=
  msg ++ [128] ++ List.replicate ((120 - (msg.length + 1) % 64) % 64) 0 ++
    md5LenBytes (msg.length * 8)

def md5WordLEBytes (w : Nat) : List Nat :=
  [w % 256, w / 256 % 256, w / 65536 % 256, w / 16777216 % 256]

def md5 (msg : List Nat) : List Nat :=
  let st := (toChunks (md5Pad msg)).foldl md5Chunk
    { a := 0x67452301, b := 0xefcdab89, c := 0x98badcfe, d := 0x10325476 }
  md5WordLEBytes st.a ++ md5WordLEBytes st.b ++ md5WordLEBytes st.c ++ md5WordLEBytes st.d

/-! ## Lowercase hex rendering of a digest (`hexdigest` in the source) -/

def hexDigit (n : Nat) : Char :=
  if n % 16 < 10 then Char.ofNat (48 + n % 16) else Char.ofNat (87 + n % 16)

def bytesToHex : List Nat → List Char
  | [] => []
  | b :: bs => hexDigit (b / 16) :: hexDigit (b % 16) :: bytesToHex bs

/-! ## UTF-8 encoding (`str.encode` in the source) -/

def utf8Char (c : Char) : List Nat :=
  let n := c.toNat
  if n < 128 then [n]
  else if n < 2048 then [192 + n / 64, 128 + n % 64]
  else if n < 65536 then [224 + n / 4096, 128 + n / 64 % 64, 128 + n % 64]
  else [240 + n / 262144, 128 + n / 4096 % 64, 128 + n / 64 % 64, 128 + n % 64]

def utf8Bytes (s : String) : List Nat :=
  s.data.foldr (fun c acc => utf8Char c ++ acc) []

/-- Embeds `SmiteClient._create_signature` (smite.py lines 122-124):
the lowercase hex MD5 digest of the UTF-8 bytes of
`dev_id + methodname + auth_key + timestamp`. -/
def create_signature (dev_id auth_key methodname ts : String) : String :=
  String.mk (bytesToHex (md5 (utf8Bytes dev_id ++ utf8Bytes methodname ++
    utf8Bytes auth_key ++ utf8Bytes ts)))

set_option maxRecDepth 4000 in
theorem md5_vector_empty :
    String.mk (bytesToHex (md5 (utf8Bytes ""))) = "d41d8cd98f00b204e9800998ecf8427e" := by
  decide

set_option maxRecDepth 4000 in
theorem md5_vector_abc :
    String.mk (bytesToHex (md5 (utf8Bytes "abc"))) = "900150983cd24fb0d6963f7d28e17f72" := by
  decide

/-! ## Python JSON values and the bits of Python semantics the source uses -/

/-- A value produced by `json.loads`: null, booleans, numbers (integral values
suffice for every claim), strings, arrays and objects. -/
inductive Json where
  | null : Json
  | bool : Bool → Json
  | num : Int → Json
  | str : String → Json
  | arr : List Json → Json
  | obj : List (String × Json) → Json

/-- Python truthiness of a JSON value (`if not jsonfinal` in `_make_request`,
`if not self._session` in the session check). -/
def Json.truthy : Json → Bool
  | .null => false
  | .bool b => b
  | .num n => n != 0
  | .str s => !(s == "")
  | .arr xs => !xs.isEmpty
  | .obj kvs => !kvs.isEmpty

/-- Character-list version of string prefix testing, needle first. -/
def startsWithCL : List Char → List Char → Bool
  | [], _ => true
  | _ :: _, [] => false
  | a :: as, b :: bs => a == b && startsWithCL as bs

/-- Character-list version of substring containment, needle first. -/
def containsSubCL (needle : List Char) : List Char → Bool
  | [] => needle.isEmpty
  | b :: bs => startsWithCL needle (b :: bs) || containsSubCL needle bs

/-- Python `needle in hay` for two strings: substring containment. -/
def strContainsSub (hay needle : String) : Bool :=
  containsSubCL needle.data hay.data

/-- Python exceptions raised by the module. -/
inductive PyErr where
  | noResult (msg : String)
  | smiteError (msg : String)
  | typeError
  | attributeError
  | unboundLocal (v : String)
  | httpError (code : Nat)

/-- Python membership `needle in j` for a string needle against a parsed JSON
value: substring test on a string, key membership on a dict, element membership
on a list, and a `TypeError` on null, booleans and numbers.  This is the check
`"successful" in json.loads(html.decode('utf-8'))` in `_test_session`. -/
def pyIn (needle : String) : Json → Except PyErr Bool
  | .str s => .ok (strContainsSub s needle)
  | .obj kvs => .ok (kvs.any (fun kv => kv.1 == needle))
  | .arr xs => .ok (xs.any (fun x => match x with | .str s => s == needle | _ => false))
  | _ => .error .typeError

/-- Association lookup used to model Python `dict.get`. -/
def lookupKey : List (String × Json) → String → Option Json
  | [], _ => none
  | (k, v) :: rest, key => if k == key then some v else lookupKey rest key

/-- Models `session.get("session_id")` followed by its use as an item of
`str.join`: an `AttributeError` when the session value is not a dict, a
`TypeError` (from `'/'.join`) when the key is missing or its value is not a
string, and the identifier string otherwise. -/
def getSessionId : Json → Except PyErr String
  | .obj kvs =>
    match lookupKey kvs "session_id" with
    | some (.str v) => .ok v
    | _ => .error .typeError
  | _ => .error .attributeError

mutual

/-- Spec-side definition (not in the source): the decoded response body text
that parses to a given JSON value, modelling the specification phrase
"the decoded response".  Compact rendering, strings without escape sequences. -/
def Json.render : Json → String
  | .null => "null"
  | .bool true => "true"
  | .bool false => "false"
  | .num n => toString n
  | .str s => "\"" ++ s ++ "\""
  | .arr xs => "[" ++ renderElems xs ++ "]"
  | .obj kvs => "\x7b" ++ renderFields kvs ++ "\x7d"

/-- Comma-separated rendering of array elements. -/
def renderElems : List Json → String
  | [] => ""
  | [x] => Json.render x
  | x :: xs => Json.render x ++ "," ++ renderElems xs

/-- Comma-separated rendering of object fields. -/
def renderFields : List (String × Json) → String
  | [] => ""
  | [(k, v)] => "\"" ++ k ++ "\":" ++ Json.render v
  | (k, v) :: kvs => "\"" ++ k ++ "\":" ++ Json.render v ++ "," ++ renderFields kvs

end

/-! ## Client state, endpoints, network model -/

/-- The `Endpoint` enum of smite.py (lines 40-46). -/
inductive Endpoint where
  | pc : Endpoint
  | ps4 : Endpoint
  | xbox : Endpoint

/-- The `value` of each `Endpoint` member: its base URL. -/
def Endpoint.value : Endpoint → String
  | .pc => "http://api.smitegame.com/smiteapi.svc/"
  | .ps4 => "http://api.ps4.smitegame.com/smiteapi.svc/"
  | .xbox => "http://api.xbox.smitegame.com/smiteapi.svc/"

/-- An arbitrary Python value passed to `_switch_endpoint`: either an
`Endpoint` enum member, or any other object (which fails the
`isinstance(endpoint, Endpoint)` check); `other` carries a description only. -/
inductive PyArg where
  | endpoint : Endpoint → PyArg
  | other : String → PyArg

/-- The mutable state of a `SmiteClient` instance: `dev_id`, `auth_key` and
`lang` are set in `__init__` and never written again; `session` is
`self._session` (`none` is Python `None`); `baseURL` is `self._BASE_URL`. -/
structure Client where
  dev_id : String
  auth_key : String
  lang : Int
  session : Option Json
  baseURL : String

/-- SmiteClient.__init__ with the default endpoint (`Endpoint.PC.value`). -/
def Client.init (dev_id auth_key : String) (lang : Int) : Client :=
  { dev_id := dev_id, auth_key := auth_key, lang := lang,
    session := none, baseURL := Endpoint.pc.value }

/-- Python truthiness of `self._session`: `None` and falsy JSON values
(empty dict, empty list, and so on) are falsy. -/
def sessionTruthy : Option Json → Bool
  | none => false
  | some j => j.truthy

/-- The network: `transport k` is the outcome of the k-th `urlopen(url).read()`
of the run (`.error code` models `urllib.error.HTTPError` with that status,
`.ok j` a body whose UTF-8 decoding parses to j); `trace` lists the URLs
fetched so far, in order, so `trace.length` counts round trips. -/
structure Net where
  transport : Nat → Except Nat Json
  trace : List String

/-- One `urlopen(url).read()` round trip. -/
def fetch (net : Net) (url : String) : Except Nat Json × Net :=
  (net.transport net.trace.length,
   { transport := net.transport, trace := net.trace ++ [url] })

/-- Python `'/'.join`. -/
def joinSlash : List String → String
  | [] => ""
  | [x] => x
  | x :: xs => x ++ "/" ++ joinSlash xs

/-- Models `url.replace(' ', '%20')` in `_make_request` (line 80). -/
def replaceSpaces (s : String) : String :=
  String.mk (s.data.foldr (fun c acc => if c == ' ' then '%' :: '2' :: '0' :: acc else c :: acc) [])

/-! ## The session lifecycle and request dispatcher -/

/-- Outcome dispatch of `_create_session` (lines 109-116): HTTP 404 raises
`NoResultError`, any other `HTTPError` is printed by `traceback.print_exc()`
and swallowed, after which the unassigned local `html` is referenced and an
`UnboundLocalError` is raised; a 2xx body is parsed and returned as is. -/
def createResult : Except Nat Json → Except PyErr Json
  | .error code =>
    if code = 404 then .error (.noResult "Couldn't create session. API auth details may be incorrect.")
    else .error (.unboundLocal "html")
  | .ok j => .ok j

/-- Embeds `SmiteClient._create_session` (lines 106-116). -/
def create_session (c : Client) (net : Net) (ts : String) : Except PyErr Json × Net :=
  let signature := create_signature c.dev_id c.auth_key "createsession" ts
  let url := c.baseURL ++ "/createsessionJson/" ++ c.dev_id ++ "/" ++ signature ++ "/" ++ ts
  let r := fetch net url
  (createResult r.1, r.2)

/-- Outcome dispatch of `_test_session` (lines 134-141): HTTP 404 raises
`NoResultError`, any other `HTTPError` is printed and swallowed leaving `html`
unassigned (`UnboundLocalError`); a 2xx body is parsed and tested with the
Python membership operator `"successful" in ...`. -/
def testResult : Except Nat Json → Except PyErr Bool
  | .error code =>
    if code = 404 then .error (.noResult "Couldn't test session. API auth details may be incorrect.")
    else .error (.unboundLocal "html")
  | .ok j => pyIn "successful" j

/-- The URL built by `_test_session` (lines 130-132). -/
def test_url (c : Client) (sid ts : String) : String :=
  c.baseURL ++ joinSlash ["testsessionJson", c.dev_id,
    create_signature c.dev_id c.auth_key "testsession" ts, sid, ts]

/-- Embeds `SmiteClient._test_session` (lines 126-141). -/
def test_session (c : Client) (session : Json) (net : Net) (ts : String) :
    Except PyErr Bool × Net :=
  match getSessionId session with
  | .error e => (.error e, net)
  | .ok sid =>
    let r := fetch net (test_url c sid ts)
    (testResult r.1, r.2)

/-- Stores a freshly created session: `self._session = self._create_session()`
(line 77).  On an exception the assignment does not happen. -/
def sessionRenew (c : Client) (net : Net) (ts : String) :
    Except PyErr Unit × Client × Net :=
  match create_session c net ts with
  | (.error e, net') => (.error e, c, net')
  | (.ok j, net') => (.ok (), { c with session := some j }, net')

/-- Embeds the session check opening `_make_request` (lines 75-77):
`if not self._session or not self._test_session(self._session):
self._session = self._create_session()`.  The probe runs only when the held
session is truthy; a failed probe leads straight to renewal. -/
def ensure_session (c : Client) (net : Net) (ts : String) :
    Except PyErr Unit × Client × Net :=
  match c.session with
  | none => sessionRenew c net ts
  | some s =>
    if s.truthy then
      match test_session c s net ts with
      | (.error e, net') => (.error e, c, net')
      | (.ok true, net') => (.ok (), c, net')
      | (.ok false, net') => sessionRenew c net' ts
    else sessionRenew c net ts

/-- Embeds `SmiteClient._build_request_url` (lines 96-104). -/
def build_request_url (c : Client) (methodname : String) (parameters : List String)
    (ts : String) : Except PyErr String :=
  let signature := create_signature c.dev_id c.auth_key methodname ts
  match c.session with
  | none => .error .attributeError
  | some s =>
    match getSessionId s with
    | .error e => .error e
    | .ok sid =>
      .ok (c.baseURL ++
        joinSlash ([methodname ++ "Json", c.dev_id, signature, sid, ts] ++ parameters))

/-- The (space-escaped) URL `_make_request` fetches for a method call. -/
def request_url (c : Client) (methodname : String) (parameters : List String)
    (sid ts : String) : String :=
  replaceSpaces (c.baseURL ++
    joinSlash ([methodname ++ "Json", c.dev_id,
      create_signature c.dev_id c.auth_key methodname ts, sid, ts] ++ parameters))

/-- Outcome dispatch of the method-call fetch in `_make_request` (lines 82-94):
404 and 400 raise `NoResultError`; any other `HTTPError` is printed and
swallowed, leaving `html` unassigned (`UnboundLocalError`); a falsy parsed
body raises `NoResultError`, otherwise the parsed body is returned as is. -/
def requestResult : Except Nat Json → Except PyErr Json
  | .error code =>
    if code = 404 then .error (.noResult "Request invalid. API auth details may be incorrect.")
    else if code = 400 then .error (.noResult "Request invalid. Bad request.")
    else .error (.unboundLocal "html")
  | .ok j =>
    if j.truthy then .ok j
    else .error (.noResult "Request was successful, but returned no data.")

/-- Embeds `SmiteClient._make_request` (lines 74-94). -/
def make_request (c : Client) (methodname : String) (parameters : List String)
    (net : Net) (ts : String) : Except PyErr Json × Client × Net :=
  match ensure_session c net ts with
  | (.error e, c', net') => (.error e, c', net')
  | (.ok _, c', net') =>
    match build_request_url c' methodname parameters ts with
    | .error e => (.error e, c', net')
    | .ok url0 =>
      let r := fetch net' (replaceSpaces url0)
      (requestResult r.1, c', r.2)

/-- Embeds `SmiteClient._switch_endpoint` (lines 143-148): a non-`Endpoint`
argument raises `SmiteError` and the state is untouched. -/
def switch_endpoint (c : Client) (endpoint : PyArg) : Except PyErr Unit × Client :=
  match endpoint with
  | .other _ => (.error (.smiteError "You need to use an enum to switch endpoints"), c)
  | .endpoint e => (.ok (), { c with baseURL := e.value })

/-- Embeds `SmiteClient.ping` (lines 150-161): a single unauthenticated GET of
`'{0}/pingJson'.format(self._BASE_URL)`; an `HTTPError` is uncaught. -/
def ping (c : Client) (net : Net) : Except PyErr Json × Client × Net :=
  let r := fetch net (c.baseURL ++ "/pingJson")
  match r.1 with
  | .error code => (.error (.httpError code), c, r.2)
  | .ok j => (.ok j, c, r.2)

/-- n repeated public calls of the same method (`request_iter method params ts n`),
each one a full `_make_request`. -/
def request_iter (methodname : String) (parameters : List String) (ts : String) :
    Nat → Client × Net → Client × Net
  | 0, p => p
  | n + 1, p => request_iter methodname parameters ts n (make_request p.1 methodname parameters p.2 ts).2

/-! ## Helper lemmas for the signature claims -/

/-- A lowercase hexadecimal digit. -/
def isLowerHexChar (c : Char) : Bool :=
  (decide (48 ≤ c.toNat) && decide (c.toNat ≤ 57)) ||
    (decide (97 ≤ c.toNat) && decide (c.toNat ≤ 102))

theorem hexDigit_isHex (n : Nat) : isLowerHexChar (hexDigit n) = true := by
  have h : n % 16 < 16 := Nat.mod_lt n (by decide)
  unfold hexDigit
  revert h
  generalize n % 16 = k
  intro h
  interval_cases k <;> decide

theorem bytesToHex_length (bs : List Nat) : (bytesToHex bs).length = 2 * bs.length := by
  induction bs with
  | nil => rfl
  | cons b bs ih => simp [bytesToHex, ih]; omega

theorem bytesToHex_allHex (bs : List Nat) : (bytesToHex bs).all isLowerHexChar = true := by
  induction bs with
  | nil => rfl
  | cons b bs ih => simp [bytesToHex, List.all_cons, hexDigit_isHex, ih]

theorem md5_length (msg : List Nat) : (md5 msg).length = 16 := rfl

/-! ## Claim theorems -/

/-- C1: for every developer ID, authorization key, method name and timestamp,
the signature is the lowercase hexadecimal MD5 digest of the UTF-8 byte
concatenation `devId + methodName + authKey + timestamp` (first conjunct,
making the concatenation order explicit); it is a 32-character string whose
characters are all lowercase hex digits (second and third conjuncts).
Determinism given fixed inputs is definitional: `create_signature` is a pure
function of the four strings.  The MD5 embedding is validated against the
RFC 1321 test vectors in `md5_vector_empty` and `md5_vector_abc`. -/
theorem create_signature_spec (dev_id auth_key methodname ts : String) :
    create_signature dev_id auth_key methodname ts =
      String.mk (bytesToHex (md5 (utf8Bytes dev_id ++ utf8Bytes methodname ++
        utf8Bytes auth_key ++ utf8Bytes ts))) ∧
    (create_signature dev_id auth_key methodname ts).length = 32 ∧
    (create_signature dev_id auth_key methodname ts).data.all isLowerHexChar = true := by
  refine ⟨rfl, ?_, bytesToHex_allHex _⟩
  show (bytesToHex (md5 _)).length = 32
  rw [bytesToHex_length, md5_length]

/-! ## Concrete scenario data -/

/-- The stub payload of the C2 scenario. -/
def stubGod : Json := .obj [("id", .num 1), ("Name", .str "TestGod")]

/-- A fixed UTC timestamp in the `YYYYMMDDHHMMSS` shape. -/
def tsW : String := "20250101000000"

/-- A session value carrying a `session_id` field. -/
def sessObj : Json := .obj [("session_id", .str "sid")]

/-- A fresh client, `SmiteClient("123", "abc")`. -/
def c2Client : Client := Client.init "123" "abc" 1

/-- A stub transport answering every request with `stubGod` (the C2 scenario
read literally). -/
def c2NetConst : Net := { transport := fun _ => .ok stubGod, trace := [] }

/-- A session-aware stub: a valid session for the creation call, the payload
for the first method call, a marker-containing probe answer, the payload
again for the second method call. -/
def c2Transport : Nat → Except Nat Json
  | 0 => .ok sessObj
  | 1 => .ok stubGod
  | 2 => .ok (.str "this was a successful test")
  | _ => .ok stubGod

def c2Net : Net := { transport := c2Transport, trace := [] }

/-- The first invocation of the session-aware C2 scenario. -/
def c2First : Except PyErr Json × Client × Net :=
  make_request c2Client "getgods" ["1"] c2Net tsW

/-- The second invocation, run on the state the first one left behind. -/
def c2Second : Except PyErr Json × Client × Net :=
  make_request c2First.2.1 "getgods" ["1"] c2First.2.2 tsW

/-- C2, counterexample: with the stub read literally (every request answered
with the payload object), the session-creation response is stored as the
session, but it has no `session_id` entry, so `session.get("session_id")`
is `None` and `'/'.join(path)` in `_build_request_url` raises a `TypeError`:
the first invocation does not return the payload at all, and only one round
trip (the creation) has happened, not two. -/
theorem c2_counterexample :
    (make_request c2Client "getgods" ["1"] c2NetConst tsW).1 = .error .typeError ∧
    (make_request c2Client "getgods" ["1"] c2NetConst tsW).1 ≠ .ok stubGod ∧
    (make_request c2Client "getgods" ["1"] c2NetConst tsW).2.2.trace.length = 1 := by
  have e : (make_request c2Client "getgods" ["1"] c2NetConst tsW).1 =
      .error .typeError := rfl
  refine ⟨e, ?_, rfl⟩
  intro h
  rw [e] at h
  exact Except.noConfusion h

/-- C2, amended: with developer ID "123", auth key "abc", method "getgods",
params ["1"], and a stub whose session-creation answer carries a
`session_id` and whose probe answer contains the marker, the first invocation
returns the payload unchanged after exactly two round trips (session creation
plus method call), the session becomes the stored creation response, and a
subsequent invocation also returns the payload unchanged but performs exactly
two further round trips (liveness probe plus method call) — not one — leaving
the session untouched. -/
theorem c2_amended_scenario :
    c2First.1 = .ok stubGod ∧
    c2First.2.2.trace.length = 2 ∧
    c2First.2.1.session = some sessObj ∧
    c2Second.1 = .ok stubGod ∧
    c2Second.2.2.trace.length = 4 ∧
    c2Second.2.1.session = c2First.2.1.session :=
  ⟨rfl, rfl, rfl, rfl, rfl, rfl⟩

/-- A client already holding a session with a `session_id`. -/
def c3Client : Client :=
  { dev_id := "123", auth_key := "abc", lang := 1,
    session := some sessObj, baseURL := Endpoint.pc.value }

/-- Transport for C3: the probe succeeds, the method call answers HTTP 500. -/
def c3Transport : Nat → Except Nat Json
  | 0 => .ok (.str "successful")
  | _ => .error 500

def c3Net : Net := { transport := c3Transport, trace := [] }

/-- C3, code bug: when the method-call fetch raises an `HTTPError` with a
status other than 404 and 400 (here 500), `_make_request` only runs
`traceback.print_exc()` in its `else` branch and falls through without
re-raising, so the `HTTPError` is swallowed; the next line then references
the local `html`, which was never assigned, and the call fails with an
`UnboundLocalError` instead of the transport error the spec promises. -/
theorem c3_swallowed_http_error :
    (make_request c3Client "getgods" ["1"] c3Net tsW).1 = .error (.unboundLocal "html") ∧
    (make_request c3Client "getgods" ["1"] c3Net tsW).1 ≠ .error (.httpError 500) := by
  have e : (make_request c3Client "getgods" ["1"] c3Net tsW).1 =
      .error (.unboundLocal "html") := rfl
  refine ⟨e, ?_⟩
  intro h
  rw [e] at h
  exact PyErr.noConfusion (Except.error.inj h)

/-- Transport for the C4 counterexample: the creation call is answered with an
object that has no `session_id` entry. -/
def c4Net : Net := { transport := fun _ => .ok (.obj [("ret_msg", .str "oops")]), trace := [] }

/-- C4, counterexample: starting from Absent (`self._session is None`), a
successful session-creation response with no session identifier field still
becomes the stored session — `_create_session` returns `json.loads(html...)`
unconditionally and line 77 assigns it — so the Absent-to-Created transition
does not require a session identifier field in the response. -/
theorem c4_counterexample :
    (ensure_session c2Client c4Net tsW).1 = .ok () ∧
    (ensure_session c2Client c4Net tsW).2.1.session = some (.obj [("ret_msg", .str "oops")]) ∧
    lookupKey [("ret_msg", Json.str "oops")] "session_id" = none :=
  ⟨rfl, rfl, rfl⟩

/-- C4, amended: the session moves from Absent (or a falsy held value) to
Created via any successful session-creation response — the parsed body is
stored wholesale whether or not it carries a session identifier field — and
whenever a liveness probe response fails the membership test for the success
marker, the held session is discarded and immediately replaced by the parsed
body of a fresh creation call (it does not linger). -/
theorem c4_transitions (c : Client) (net : Net) (ts : String) (jc : Json)
    (hcase :
      (sessionTruthy c.session = false ∧ net.transport net.trace.length = .ok jc) ∨
      (∃ s sid jp, c.session = some s ∧ s.truthy = true ∧ getSessionId s = .ok sid ∧
        net.transport net.trace.length = .ok jp ∧ pyIn "successful" jp = .ok false ∧
        net.transport (net.trace.length + 1) = .ok jc)) :
    (ensure_session c net ts).1 = .ok () ∧
    (ensure_session c net ts).2.1.session = some jc := by
  rcases hcase with ⟨hfalsy, hresp⟩ | ⟨s, sid, jp, hs, ht, hsid, hp, hin, hc⟩
  · cases hcs : c.session with
    | none =>
      simp [ensure_session, hcs, sessionRenew, create_session, fetch, createResult, hresp]
    | some s =>
      have ht : s.truthy = false := by simpa [sessionTruthy, hcs] using hfalsy
      simp [ensure_session, hcs, ht, sessionRenew, create_session, fetch, createResult, hresp]
  · simp [ensure_session, hs, ht, test_session, hsid, fetch, testResult, hp, hin,
      sessionRenew, create_session, createResult, List.length_append, hc]

/-- C4, witness (Absent-to-Created side at a concrete input). -/
theorem c4_transitions_witness :
    (ensure_session c2Client c4Net tsW).1 = .ok () ∧
    (ensure_session c2Client c4Net tsW).2.1.session = some (.obj [("ret_msg", .str "oops")]) :=
  c4_transitions c2Client c4Net tsW (.obj [("ret_msg", .str "oops")]) (Or.inl ⟨rfl, rfl⟩)

/-- Probe response for the C5 counterexample: a JSON array whose only element
is a string that contains — but is not equal to — the marker. -/
def c5Probe : Json := .arr [.str "a successful test"]

def c5Net : Net := { transport := fun _ => .ok c5Probe, trace := [] }

/-- C5, counterexample: the decoded response text contains the literal marker
substring "successful", yet the probe returns false, because the source tests
`"successful" in json.loads(...)` with Python membership semantics: on a list
this is element membership, not substring containment on the decoded text. -/
theorem c5_counterexample :
    (test_session c3Client sessObj c5Net tsW).1 = .ok false ∧
    strContainsSub (Json.render c5Probe) "successful" = true := by
  refine ⟨rfl, ?_⟩
  have hr : Json.render c5Probe = "[\"a successful test\"]" := by
    simp [c5Probe, Json.render, renderElems]
  rw [hr]
  decide

/-- Transport for the C5 witness: the probe is answered with a JSON string. -/
def c5WNet : Net := { transport := fun _ => .ok (.str "successful test"), trace := [] }

/-- C5, amended: for every held session whose `session_id` is the string sid
and every 2xx probe response, `_test_session` returns exactly the Python
membership test of "successful" against the parsed response (substring test
for a string response, key membership for an object, element membership for
an array, `TypeError` otherwise), and the single URL it fetches is the signed
`testsession` URL embedding sid. -/
theorem c5_probe (c : Client) (s : Json) (sid : String) (net : Net) (ts : String) (jp : Json)
    (hsid : getSessionId s = .ok sid)
    (hresp : net.transport net.trace.length = .ok jp) :
    (test_session c s net ts).1 = pyIn "successful" jp ∧
    (test_session c s net ts).2.trace = net.trace ++
      [c.baseURL ++ ("testsessionJson" ++ "/" ++ (c.dev_id ++ "/" ++
        (create_signature c.dev_id c.auth_key "testsession" ts ++ "/" ++ (sid ++ "/" ++ ts))))] := by
  simp [test_session, hsid, fetch, testResult, hresp, test_url, joinSlash]

/-- C5, witness. -/
theorem c5_probe_witness :
    (test_session c3Client sessObj c5WNet tsW).1 = pyIn "successful" (.str "successful test") ∧
    (test_session c3Client sessObj c5WNet tsW).2.trace = c5WNet.trace ++
      [c3Client.baseURL ++ ("testsessionJson" ++ "/" ++ (c3Client.dev_id ++ "/" ++
        (create_signature c3Client.dev_id c3Client.auth_key "testsession" tsW ++ "/" ++
          ("sid" ++ "/" ++ tsW))))] :=
  c5_probe c3Client sessObj "sid" c5WNet tsW (.str "successful test") rfl rfl

/-- A transport answering every request with HTTP 404. -/
def net404 : Net := { transport := fun _ => .error 404, trace := [] }

/-- C6: whenever the transport answers HTTP 404, session creation fails with
`NoResultError("Couldn't create session. API auth details may be incorrect.")`
— the SessionError of the spec taxonomy — and a liveness probe (for a held
session whose identifier is a string) fails with
`NoResultError("Couldn't test session. API auth details may be incorrect.")`;
each operation performs exactly one round trip, so no retry is attempted. -/
theorem c6_http404 (c : Client) (net : Net) (ts : String) (s : Json) (sid : String)
    (h404 : net.transport net.trace.length = .error 404)
    (hsid : getSessionId s = .ok sid) :
    (create_session c net ts).1 =
      .error (.noResult "Couldn't create session. API auth details may be incorrect.") ∧
    (create_session c net ts).2.trace.length = net.trace.length + 1 ∧
    (test_session c s net ts).1 =
      .error (.noResult "Couldn't test session. API auth details may be incorrect.") ∧
    (test_session c s net ts).2.trace.length = net.trace.length + 1 := by
  refine ⟨?_, ?_, ?_, ?_⟩ <;>
    simp [create_session, test_session, hsid, fetch, createResult, testResult, h404]

/-- C6, witness. -/
theorem c6_http404_witness :
    (create_session c3Client net404 tsW).1 =
      .error (.noResult "Couldn't create session. API auth details may be incorrect.") ∧
    (create_session c3Client net404 tsW).2.trace.length = net404.trace.length + 1 ∧
    (test_session c3Client sessObj net404 tsW).1 =
      .error (.noResult "Couldn't test session. API auth details may be incorrect.") ∧
    (test_session c3Client sessObj net404 tsW).2.trace.length = net404.trace.length + 1 :=
  c6_http404 c3Client net404 tsW sessObj "sid" rfl rfl

/-- C7: for every client state and every argument outside the `Endpoint` enum
(anything failing the `isinstance` check), `_switch_endpoint` raises
`SmiteError("You need to use an enum to switch endpoints")` — the ConfigError
of the spec taxonomy — and the client, in particular its selected base URL,
is returned unchanged. -/
theorem c7_switch (c : Client) (v : String) :
    switch_endpoint c (.other v) =
      (.error (.smiteError "You need to use an enum to switch endpoints"), c) := rfl

/-- C8: for every client holding a verified session (the held session is
truthy, carries a string `session_id`, and the probe response passes the
membership test), every method name, every parameter list and every base URL,
if the method-call response parses to an empty value — empty object, empty
array or null — the request fails with
`NoResultError("Request was successful, but returned no data.")`, the
EmptyResultError of the spec taxonomy. -/
theorem c8_empty (c : Client) (s : Json) (sid ts methodname : String)
    (parameters : List String) (net : Net) (jp jr : Json)
    (hs : c.session = some s) (ht : s.truthy = true) (hsid : getSessionId s = .ok sid)
    (hp : net.transport net.trace.length = .ok jp) (hin : pyIn "successful" jp = .ok true)
    (hr : net.transport (net.trace.length + 1) = .ok jr)
    (hempty : jr = .obj [] ∨ jr = .arr [] ∨ jr = .null) :
    (make_request c methodname parameters net ts).1 =
      .error (.noResult "Request was successful, but returned no data.") := by
  have htr : jr.truthy = false := by rcases hempty with h | h | h <;> subst h <;> rfl
  simp [make_request, ensure_session, hs, ht, test_session, hsid, fetch, testResult, hp, hin,
    build_request_url, requestResult, List.length_append, hr, htr]

/-- Transport for the C8 witness: probe marker, then an empty array. -/
def c8Transport : Nat → Except Nat Json
  | 0 => .ok (.str "successful")
  | _ => .ok (.arr [])

def c8Net : Net := { transport := c8Transport, trace := [] }

/-- C8, witness. -/
theorem c8_empty_witness :
    (make_request c3Client "gettopmatches" [] c8Net tsW).1 =
      .error (.noResult "Request was successful, but returned no data.") :=
  c8_empty c3Client sessObj "sid" tsW "gettopmatches" [] c8Net (.str "successful") (.arr [])
    rfl rfl rfl rfl rfl rfl (Or.inr (Or.inl rfl))

/-- One verified-session `_make_request`: when the held session is truthy
with a string identifier and the probe response passes the membership test,
the call leaves the client (hence the stored session) exactly as it was and
adds exactly the probe URL and the method URL to the trace. -/
theorem make_request_verified_step (c : Client) (s : Json) (sid : String) (net : Net)
    (ts methodname : String) (parameters : List String) (jp : Json)
    (hs : c.session = some s) (ht : s.truthy = true) (hsid : getSessionId s = .ok sid)
    (hp : net.transport net.trace.length = .ok jp) (hin : pyIn "successful" jp = .ok true) :
    (make_request c methodname parameters net ts).2 =
      (c, { transport := net.transport,
            trace := net.trace ++
              [test_url c sid ts, request_url c methodname parameters sid ts] }) := by
  simp [make_request, ensure_session, hs, ht, test_session, hsid, fetch, testResult, hp, hin,
    build_request_url, request_url, List.append_assoc]

/-- The URLs fetched by n verified-session calls: a probe URL and a method
URL per call, and never the `createsession` URL. -/
def iterURLs (c : Client) (sid ts methodname : String) (parameters : List String) :
    Nat → List String
  | 0 => []
  | n + 1 => test_url c sid ts :: request_url c methodname parameters sid ts ::
      iterURLs c sid ts methodname parameters n

/-- C9: while the held session stays valid — it is truthy, carries a string
identifier, and every liveness probe response passes the membership test —
any number n of repeated public calls leaves the client, in particular the
stored session, exactly unchanged, and the trace grows by exactly the n probe
URLs and n method URLs of `iterURLs`: `_create_session` never runs, so no
`createsession` request is ever issued while the session is verified. -/
theorem c9_no_recreate (c : Client) (s : Json) (sid ts methodname : String)
    (parameters : List String) (net : Net) (n : Nat)
    (hs : c.session = some s) (ht : s.truthy = true) (hsid : getSessionId s = .ok sid)
    (hp : ∀ k, ∃ jp, net.transport (net.trace.length + 2 * k) = .ok jp ∧
      pyIn "successful" jp = .ok true) :
    (request_iter methodname parameters ts n (c, net)).1 = c ∧
    (request_iter methodname parameters ts n (c, net)).2.transport = net.transport ∧
    (request_iter methodname parameters ts n (c, net)).2.trace =
      net.trace ++ iterURLs c sid ts methodname parameters n := by
  induction n generalizing net with
  | zero => simp [request_iter, iterURLs]
  | succ n ih =>
    obtain ⟨jp, hp0, hin0⟩ := hp 0
    rw [Nat.mul_zero, Nat.add_zero] at hp0
    have hstep := make_request_verified_step c s sid net ts methodname parameters jp
      hs ht hsid hp0 hin0
    have hnext := ih
      { transport := net.transport,
        trace := net.trace ++ [test_url c sid ts, request_url c methodname parameters sid ts] }
      (by
        intro k
        obtain ⟨jq, h1, h2⟩ := hp (k + 1)
        refine ⟨jq, ?_, h2⟩
        have harith : (net.trace ++
            [test_url c sid ts, request_url c methodname parameters sid ts]).length + 2 * k =
            net.trace.length + 2 * (k + 1) := by
          simp [List.length_append]
          omega
        rw [harith]
        exact h1)
    simp only [request_iter]
    rw [hstep]
    refine ⟨hnext.1, hnext.2.1, ?_⟩
    rw [hnext.2.2]
    simp [iterURLs, List.append_assoc]

/-- Transport for the C9 witness: marker string on every even call (the
probes), a number on every odd call (the method calls). -/
def c9Transport : Nat → Except Nat Json :=
  fun k => if k % 2 = 0 then .ok (.str "successful") else .ok (.num 1)

def c9Net : Net := { transport := c9Transport, trace := [] }

/-- C9, witness: two repeated calls at a concrete verified session. -/
theorem c9_no_recreate_witness :
    (request_iter "getgods" ["1"] tsW 2 (c3Client, c9Net)).1 = c3Client ∧
    (request_iter "getgods" ["1"] tsW 2 (c3Client, c9Net)).2.transport = c9Net.transport ∧
    (request_iter "getgods" ["1"] tsW 2 (c3Client, c9Net)).2.trace =
      c9Net.trace ++ iterURLs c3Client "sid" tsW "getgods" ["1"] 2 :=
  c9_no_recreate c3Client sessObj "sid" tsW "getgods" ["1"] c9Net 2 rfl rfl rfl
    (fun k => ⟨.str "successful", by
      have h2 : (c9Net.trace.length + 2 * k) % 2 = 0 := by
        show (([] : List String).length + 2 * k) % 2 = 0
        simp
      show c9Transport (c9Net.trace.length + 2 * k) = _
      simp [c9Transport, h2], rfl⟩)

/-- C10, counterexample: the URL `ping` fetches is
`'{0}/pingJson'.format(self._BASE_URL)`, that is baseURL + "/pingJson", not
baseURL + "pingJson": with the default PC endpoint the two differ (the
fetched URL carries a double slash). -/
theorem c10_counterexample :
    (ping c2Client c9Net).2.2.trace = ["http://api.smitegame.com/smiteapi.svc//pingJson"] ∧
    ("http://api.smitegame.com/smiteapi.svc//pingJson" : String) ≠
      "http://api.smitegame.com/smiteapi.svc/" ++ "pingJson" := by
  refine ⟨rfl, by decide⟩

/-- C10, amended: for every client state and transport, `ping` performs
exactly one HTTP GET, of baseURL + "/pingJson" — a URL containing no
signature, no timestamp and no session identifier — with no session liveness
check or creation (the trace grows by that single URL only), and it returns
the client unchanged: session slot, credentials and base URL untouched. -/
theorem c10_ping (c : Client) (net : Net) :
    (ping c net).2.1 = c ∧
    (ping c net).2.2.transport = net.transport ∧
    (ping c net).2.2.trace = net.trace ++ [c.baseURL ++ "/pingJson"] := by
  cases h : net.transport net.trace.length <;> simp [ping, fetch, h]
